import Mathlib

/-!
Shallow embedding of `nslsii/areadetector/xspress3.py` (Xspress3 detector
support: eV/bin conversion, ROI configuration, channel/detector class
builders, the HDF5 file-staging controller, and the trigger mixin), with
theorems checking the module's natural-language specification against it.

Hardware interaction (EPICS `put` calls) is modelled as an explicit, ordered
trace of write events; stateful Python objects become explicit state records
threaded through the functions; Python exceptions become explicit outcome
constructors.  Python integers are `Int`; machine-level concerns do not arise
in this module.
-/

namespace Xspress3

/-! ## Energy / bin conversion (`ev_to_bin`, `bin_to_ev`)

Python: `ev_to_bin(ev) = int(ev / 10)`.  For an integer argument, `ev / 10`
is exact true division followed by `int(...)`, which truncates toward zero;
on integers in the physically relevant range this is exactly truncating
division: `|ev| / 10` with the sign of `ev` put back.
`bin_to_ev(bin_) = int(bin_) * 10`. -/

def ev_to_bin (ev : Int) : Int := if 0 ≤ ev then ev / 10 else -((-ev) / 10)

def bin_to_ev (bin_ : Int) : Int := bin_ * 10

/-! ## ROI hardware state and `McaRoi.configure_roi`

An `McaRoi` owns three writable PVs that matter to `configure_roi`:
`min_x` (MinX), `size_x` (SizeX) and `use` (Use).  A `put` to one of them is
recorded as a `RoiWrite` event; the PV afterwards reads back the written
value. -/

structure RoiHw where
  min_x : Int
  size_x : Int
  use : Int
deriving DecidableEq, Repr

inductive RoiWrite
  | putMinX (v : Int)
  | putSizeX (v : Int)
  | putUse (v : Int)
deriving DecidableEq, Repr

/-- `McaRoi.configure_roi(ev_min, ev_size)`: casts both arguments to int
(already `Int` here), compares the current `(min_x, size_x, use)` readings
against `(ev_min, ev_size, 1)`, and only when something differs writes
`min_x`, then `size_x`, then `use`, in that order.  Returns the resulting
hardware state together with the ordered write trace. -/
def configure_roi (ev_min ev_size : Int) (hw : RoiHw) : RoiHw × List RoiWrite :=
  let use_roi : Int := 1
  let configuration_changed :=
    hw.min_x ≠ ev_min ∨ hw.size_x ≠ ev_size ∨ hw.use ≠ use_roi
  if configuration_changed then
    ({ min_x := ev_min, size_x := ev_size, use := use_roi },
      [.putMinX ev_min, .putSizeX ev_size, .putUse use_roi])
  else
    (hw, [])

/-- `McaRoi.clear()`: disables the ROI only (a single `use.put(0)`),
leaving `min_x` and `size_x` untouched. -/
def clear_roi (hw : RoiHw) : RoiHw × List RoiWrite :=
  ({ hw with use := 0 }, [.putUse 0])

/-! ## `Xspress3ChannelBase.set_roi`

A channel's `mcarois` sub-device owns ROI slots addressed by the attribute
names `mcaroi01 .. mcaroiNN`; we model them as a 1-based list of `RoiHw`
states.  Renaming (`name=...`) assigns Python-side `.name` attributes of
the ROI's signals — no PV write — using the channel's two naming
templates. -/

inductive SetRoiResult
  | valueError       -- ValueError("MCAROI index starts from 1"), no hardware touched
  | attributeError   -- getattr fails: no such mcaroi attribute
  | ok (rois : List RoiHw) (writes : List RoiWrite)
      (labels : Option (String × String))
deriving DecidableEq, Repr

/-- `set_roi(index, ev_min=…, ev_size=…, name=…)` with an integer index
(the `McaRoi`-instance branch bypasses all checks and is the same from
`configure_roi` on): raises `ValueError` for `index ≤ 0` before touching any
hardware signal; otherwise resolves `mcaroi{index:02d}` (1-based) and calls
its `configure_roi`; when `name` is given, formats
`roi_name_format = "Det{channel_num}_{roi_name}"` and then
`roi_total_name_format = "Det{channel_num}_{roi_name}_total"` — the latter
applied to the already-formatted name — and records both labels. -/
def set_roi (channel_num : Nat) (rois : List RoiHw) (index : Int)
    (ev_min ev_size : Int) (name : Option String) : SetRoiResult :=
  if index ≤ 0 then .valueError
  else
    match rois.get? (index.toNat - 1) with
    | none => .attributeError
    | some roi =>
      let cr := configure_roi ev_min ev_size roi
      let labels := name.map fun nm =>
        let roi_name := "Det" ++ toString channel_num ++ "_" ++ nm
        (roi_name, "Det" ++ toString channel_num ++ "_" ++ roi_name ++ "_total")
      .ok (rois.set (index.toNat - 1) cr.1) cr.2 labels

/-! ## `Xspress3FileStore.generate_datum`

The key-to-channel lookup is `next(... for j in self.channels if
getattr(self.parent, f"channel{j}").name == key)` with **no default**: a key
matching no channel raises `StopIteration` out of the unguarded `next`.
`chanName j` models `getattr(self.parent, f"channel{j}").name`. -/

inductive DatumExn
  | stopIteration
deriving DecidableEq, Repr

/-- Dictionary assignment `d[k] = v` for insertion-ordered dicts. -/
def assocSet {κ ν : Type} [DecidableEq κ] : List (κ × ν) → κ → ν → List (κ × ν)
  | [], k, v => [(k, v)]
  | (k', v') :: rest, k, v =>
    if k' = k then (k, v) :: rest else (k', v') :: assocSet rest k v

/-- The `Xspress3FileStore` state `generate_datum` reads and writes. -/
structure DatumState where
  channels : List Nat
  mdsKeys : List (Nat × String)
  absTriggerCount : Nat
deriving DecidableEq, Repr

structure DatumResult where
  finalState : DatumState
  emitted : Option (String × List (String × Int))  -- super().generate_datum args
  raised : Option DatumExn
deriving DecidableEq, Repr

/-- `generate_datum(key, timestamp, datum_kwargs)`: finds the first channel
number `n` in `self.channels` whose channel entity is named `key`; when none
matches, `StopIteration` escapes with no datum recorded and no
key-to-channel mapping changed.  On a match it updates `datum_kwargs` with
`frame = self.parent._abs_trigger_count` and `channel = n`, records
`mds_keys[n] = key`, and delegates to the filestore collaborator. -/
def generate_datum (chanName : Nat → String) (st : DatumState) (key : String)
    (datum_kwargs : List (String × Int)) : DatumResult :=
  match st.channels.find? (fun j => chanName j = key) with
  | none => { finalState := st, emitted := none, raised := some .stopIteration }
  | some n =>
    let kwargs1 := assocSet datum_kwargs "frame" (st.absTriggerCount : Int)
    let kwargs2 := assocSet kwargs1 "channel" (n : Int)
    { finalState := { st with mdsKeys := assocSet st.mdsKeys n key }
      emitted := some (key, kwargs2)
      raised := none }

/-! ## Memoized class builders (`build_channel_class`, `build_detector_class`)

Both builders are wrapped in `functools.lru_cache`, keyed by the argument
tuple.  Two calls return *the identical type object* exactly when Python's
`is` relates their results; we model each dynamically created type object by
a unique numeric identity allocated at creation, held in a memo table, and
model the type's *content* (name, attributes, sub-entity layout) by a
separate description record, a pure function of the arguments. -/

structure Memo (α : Type) where
  entries : List (α × Nat)
  next : Nat

/-- Cache lookup by argument tuple. -/
def Memo.find? {α : Type} [DecidableEq α] (m : Memo α) (a : α) : Option Nat :=
  (m.entries.find? fun e => e.1 = a).map fun e => e.2

/-- One `lru_cache`-wrapped call: return the cached object identity on a
hit; on a miss, allocate a fresh identity (the underlying function body
runs and `type(...)` creates a new object) and cache it. -/
def Memo.call {α : Type} [DecidableEq α] (m : Memo α) (a : α) : Nat × Memo α :=
  match m.find? a with
  | some id => (id, m)
  | none => (m.next, { entries := m.entries ++ [(a, m.next)], next := m.next + 1 })

def Memo.empty {α : Type} : Memo α := ⟨[], 0⟩

/-- Cache well-formedness: every cached identity was allocated by the
counter, and no two cache entries share an identity. -/
def Memo.Inv {α : Type} (m : Memo α) : Prop :=
  (∀ p ∈ m.entries, p.2 < m.next) ∧ (m.entries.map Prod.snd).Nodup

/-- Python `f"{n:02d}"`: decimal, zero-padded to at least two digits. -/
def pad2 (n : Nat) : String :=
  if n < 10 then "0" ++ toString n else toString n

/-- The ROI attribute name `f"mcaroi{i:02d}"`. -/
def mcaroiAttrName (i : Nat) : String := "mcaroi" ++ pad2 i

/-- Content of a dynamically built channel class: its name, the fixed
`channel_num` attribute, the PV strings of its `sca` / `mca` / `mca_sum`
sub-entities, and the ordered `mcarois` slots as
(attribute name, PV string) pairs. -/
structure ChannelClassDesc where
  className : String
  channel_num : Nat
  scaPv : String
  mcaPv : String
  mcaSumPv : String
  mcarois : List (String × String)
deriving DecidableEq, Repr

/-- The body of `build_channel_class(channel_num, roi_count)` (the `type(...)`
call): class `Xspress3Channel_{channel_num}_with_{roi_count}_rois` with ROI
slots `mcaroi01 .. mcaroiNN` bound to PVs `MCA{channel_num}ROI:{i}:` for
`i = 1 .. roi_count`. -/
def build_channel_class_body (channel_num roi_count : Nat) : ChannelClassDesc :=
  { className := "Xspress3Channel_" ++ toString channel_num ++ "_with_" ++
      toString roi_count ++ "_rois"
    channel_num := channel_num
    scaPv := "C" ++ toString channel_num ++ "SCA:"
    mcaPv := "MCA" ++ toString channel_num ++ ":"
    mcaSumPv := "MCA" ++ toString channel_num ++ "SUM:"
    mcarois := (List.range' 1 roi_count).map fun i =>
      (mcaroiAttrName i, "MCA" ++ toString channel_num ++ "ROI:" ++
        toString i ++ ":") }

/-- The two `lru_cache` tables of the module, one per builder. -/
structure BuilderState where
  channelMemo : Memo (Nat × Nat)
  detectorMemo : Memo (Nat × Nat)

def BuilderState.empty : BuilderState := ⟨Memo.empty, Memo.empty⟩

def BuilderState.Inv (st : BuilderState) : Prop :=
  st.channelMemo.Inv ∧ st.detectorMemo.Inv

/-- `build_channel_class(channel_num, roi_count)`: memoized on the argument
tuple; returns the type object's identity together with its content. -/
def build_channel_class (channel_num roi_count : Nat) (st : BuilderState) :
    (Nat × ChannelClassDesc) × BuilderState :=
  let r := st.channelMemo.call (channel_num, roi_count)
  ((r.1, build_channel_class_body channel_num roi_count),
    { st with channelMemo := r.2 })

/-- Content of a dynamically built detector class: its name, the soft
signal defaults, and the channel slots `channel_1 .. channel_C` with their
channel class contents. -/
structure DetectorClassDesc where
  className : String
  external_trig_default : Bool
  total_points_default : Int
  spectra_per_point_default : Int
  make_directories_default : Bool
  rewindable_default : Bool
  channels : List (String × ChannelClassDesc)
deriving DecidableEq, Repr

/-- The body of `build_detector_class(channel_count, roi_count)`: class
`Xspress3Detector_{channel_count}channel_{roi_count}roi` with soft signals
`external_trig = False`, `total_points = -1`, `spectra_per_point = 1`,
`make_directories = False`, `rewindable = False`, and channel slots
`channel_{c}` for `c = 1 .. channel_count`, each built with the given
`roi_count`. -/
def build_detector_class_body (channel_count roi_count : Nat) : DetectorClassDesc :=
  { className := "Xspress3Detector_" ++ toString channel_count ++ "channel_" ++
      toString roi_count ++ "roi"
    external_trig_default := false
    total_points_default := -1
    spectra_per_point_default := 1
    make_directories_default := false
    rewindable_default := false
    channels := (List.range' 1 channel_count).map fun c =>
      ("channel_" ++ toString c, build_channel_class_body c roi_count) }

/-- `build_detector_class(channel_count, roi_count)` (with
`parent_classes = None`, the key's third component being constant):
memoized on the argument tuple.  On a cache miss the function body runs and
calls the memoized channel builder once per channel (filling the channel
cache) before creating the new detector type. -/
def build_detector_class (channel_count roi_count : Nat) (st : BuilderState) :
    (Nat × DetectorClassDesc) × BuilderState :=
  match st.detectorMemo.find? (channel_count, roi_count) with
  | some id => ((id, build_detector_class_body channel_count roi_count), st)
  | none =>
    let st1 := (List.range' 1 channel_count).foldl
      (fun s c => (build_channel_class c roi_count s).2) st
    let r := st1.detectorMemo.call (channel_count, roi_count)
    ((r.1, build_detector_class_body channel_count roi_count),
      { st1 with detectorMemo := r.2 })

/-! ## Trigger mixin (`XspressTrigger`)

`self._status` is either `None` or an ophyd `DeviceStatus`; we model a
`DeviceStatus` by the number of `_finished()` calls it has received (a fresh
pending status has received none).  `_acquire_changed` additionally reports
how many `_finished()` calls the invocation itself made, so "resolves exactly
once" is a statement about that count. -/

structure PendingStatus where
  finishedCount : Nat
deriving DecidableEq, Repr

/-- `XspressTrigger._acquire_changed(value, old_value)`: returns the new
`_status` slot together with the number of `_finished()` calls made during
this invocation.  If no status is pending it returns immediately; a strict
falling edge (`old_value == 1 and value == 0`) calls `_finished()` on the
pending status exactly once; any other edge does nothing. -/
def acquire_changed (value old_value : Int) (status : Option PendingStatus) :
    Option PendingStatus × Nat :=
  match status with
  | none => (none, 0)
  | some s =>
    if old_value = 1 ∧ value = 0 then
      (some ⟨s.finishedCount + 1⟩, 1)
    else
      (some s, 0)

/-- The mutable state of an `XspressTrigger` device relevant to `trigger()`:
whether `self._staged == Staged.yes`, the `_status` slot, the absolute
trigger counter, and `self.read_attrs` (attribute names scanned for channel
dispatch). -/
structure TriggerDeviceState where
  staged : Bool
  status : Option PendingStatus
  absTriggerCount : Nat
  readAttrs : List String
deriving DecidableEq, Repr

/-- Observable effects of one `trigger()` call: the non-blocking
`acquire.put(1, wait=False)` and the `dispatch(name, trigger_time)`
notifications. -/
inductive TriggerEvent
  | acquirePut (v : Int) (wait : Bool)
  | dispatch (streamName : String)
deriving DecidableEq, Repr

/-- `XspressTrigger.trigger()`: raises `RuntimeError("not staged")` when the
device is not staged, leaving all state (in particular the `_status` slot)
unchanged and producing no events.  Otherwise it installs a fresh pending
status, issues a non-blocking acquire pulse, dispatches every read attribute
named `channel*` without a dot (using `chanStreamName` for the channel's
stream name, modelling `getattr(self, sn).name`), increments the absolute
trigger counter, and returns the pending status. -/
def trigger (chanStreamName : String → String) (st : TriggerDeviceState) :
    TriggerDeviceState × List TriggerEvent × Except String PendingStatus :=
  if st.staged = false then
    (st, [], .error "not staged")
  else
    let fut : PendingStatus := ⟨0⟩
    let dispatches :=
      (st.readAttrs.filter fun sn =>
        sn.startsWith "channel" && !(sn.contains '.')).map
        fun sn => TriggerEvent.dispatch (chanStreamName sn)
    ({ st with
        status := some fut
        absTriggerCount := st.absTriggerCount + 1 },
      TriggerEvent.acquirePut 1 false :: dispatches,
      .ok fut)

/-! ## Unstage drain loop (`Xspress3FileStore.unstage`)

`unstage` polls `capture.get()` in a bounded loop.  The environment is a
sequence of readings, `reads n` being the result of the `n`-th `get` call
(0-indexed).  A `KeyboardInterrupt` may be delivered during the `time.sleep`
of iteration `k` (1-indexed, matching the loop counter `i`); the parameter
`interruptAt = some k` models that.  Observable effects are traced as
`UnstageEvent`s in program order. -/

inductive UnstageEvent
  | warnWaiting      -- "Still capturing data .... waiting."   (every 50 iterations)
  | warnGivingUp     -- "Still capturing data .... giving up."
  | warnCheckFrames  -- "Check that the xspress3 is configured to take ..."
  | warnInterrupted  -- "Still capturing data .... interrupted."
  | sleep100ms       -- time.sleep(0.1)
  | capturePutZero   -- self.capture.put(0)
deriving DecidableEq, Repr

/-- The only exception the modelled loop body can raise. -/
inductive LoopExn
  | keyboardInterrupt
deriving DecidableEq, Repr

/-- The `while self.capture.get() == 1` loop of `unstage`, starting from
loop counter `i` and consuming one fuel per iteration.  Each iteration:
reads `capture`; exits when the reading is not 1; increments `i`; warns
every 50 iterations; sleeps 0.1 s (during which the external interrupt, if
scheduled for this iteration, fires and aborts the body); and when `i`
exceeds 150 warns twice, forces `capture.put(0)` and breaks.  The loop body
breaks no later than `i = 151`, so any fuel `≥ 151 - i` is exact; fuel 0 is
never reached from `unstage` below. -/
def unstageLoop (reads : Nat → Int) (interruptAt : Option Nat) :
    Nat → Nat → List UnstageEvent × Option LoopExn
  | _, 0 => ([], none)
  | i, fuel + 1 =>
    if reads i ≠ 1 then ([], none)
    else
      let i' := i + 1
      let warnEvts := if i' % 50 = 0 then [UnstageEvent.warnWaiting] else []
      if interruptAt = some i' then
        (warnEvts, some .keyboardInterrupt)
      else
        let rest :=
          if 150 < i' then
            ([UnstageEvent.warnGivingUp, UnstageEvent.warnCheckFrames,
              UnstageEvent.capturePutZero], none)
          else
            unstageLoop reads interruptAt i' fuel
        (warnEvts ++ UnstageEvent.sleep100ms :: rest.1, rest.2)

structure UnstageOutcome where
  events : List UnstageEvent
  raised : Option LoopExn
deriving DecidableEq, Repr

/-- `Xspress3FileStore.unstage()`: runs the drain loop inside
`try: ... except KeyboardInterrupt:`; the handler forces `capture.put(0)`
and logs the interrupted warning, swallowing the exception.  Afterwards
`super().unstage()` runs (external collaborator).  `raised` records any
exception propagating out of the modelled code. -/
def unstage (reads : Nat → Int) (interruptAt : Option Nat) : UnstageOutcome :=
  match unstageLoop reads interruptAt 0 151 with
  | (evts, none) => { events := evts, raised := none }
  | (evts, some .keyboardInterrupt) =>
    { events := evts ++ [UnstageEvent.capturePutZero, UnstageEvent.warnInterrupted]
      raised := none }

/-! ## File-staging controller (`Xspress3FileStore.stage`)

`stage_sigs` is an ophyd `OrderedDict` keyed by signals; `SigKey` names the
signals this module touches and `SigMap` models the ordered dict: setting an
existing key updates it in place, setting a new key appends, popping
removes.  Direct hardware `put` calls made by `stage` (as opposed to values
recorded in `stage_sigs` for `super().stage()` to apply) are traced as
`HwWrite` events in program order. -/

inductive SigKey
  | blockingCallbacks
  | enable
  | compression
  | fileTemplate
  | camAcquire
  | numCaptureCalcDisable
  | camTriggerMode
  | camNumImages
  | autoSave
  | numCapture
deriving DecidableEq, Repr

inductive SigVal
  | int (n : Int)
  | str (s : String)
deriving DecidableEq, Repr

def SigMap := List (SigKey × SigVal)

instance : DecidableEq SigMap := inferInstanceAs (DecidableEq (List (SigKey × SigVal)))

instance : Repr SigMap := inferInstanceAs (Repr (List (SigKey × SigVal)))

/-- `OrderedDict` assignment `m[k] = v`: replace in place if present,
append otherwise. -/
def SigMap.set : SigMap → SigKey → SigVal → SigMap
  | [], k, v => [(k, v)]
  | (k', v') :: rest, k, v =>
    if k' = k then (k, v) :: rest else (k', v') :: SigMap.set rest k v

/-- `OrderedDict.pop(k, None)`: remove the key if present. -/
def SigMap.pop (m : SigMap) (k : SigKey) : SigMap :=
  m.filter fun kv => kv.1 ≠ k

/-- Dictionary lookup. -/
def SigMap.get? (m : SigMap) (k : SigKey) : Option SigVal :=
  (m.find? fun kv => kv.1 = k).map fun kv => kv.2

/-- The `stage_sigs` entries installed by `Xspress3FileStore.__init__`
(entries inherited from ophyd base classes are external and not modelled;
the theorems below hold for an arbitrary initial map). -/
def initStageSigs : SigMap :=
  [(.blockingCallbacks, .int 1), (.enable, .int 1),
    (.compression, .str "zlib"), (.fileTemplate, .str "%s%s_%6.6d.h5")]

/-- Direct hardware writes performed by `stage` itself, in program order. -/
inductive HwWrite
  | camAcquirePut (v : Int) (wait : Bool)
  | camErasePut (v : Int) (wait : Bool)
  | capturePut (v : Int)
deriving DecidableEq, Repr

/-- The signal readings `stage` consumes: the detector's soft configuration
signals and the IOC-side `file_path_exists` check. -/
structure StageEnv where
  external_trig : Bool
  total_points : Int
  spectra_per_point : Int
  file_path_exists : Bool
  make_directories : Bool
deriving DecidableEq, Repr

inductive StageError
  | totalPointsNotSet  -- RuntimeError("You must set the total points")
  | pathDoesNotExist   -- IOError("Path ... does not exits on IOC")
deriving DecidableEq, Repr

/-- What one `stage()` call did: the direct hardware writes in order, the
exception raised (if any), the `stage_sigs` map as it stood when
`super().stage()` applied it (or when the exception was raised), and whether
the filestore resource was generated and the settle sleep reached. -/
structure StageOutcome where
  writes : List HwWrite
  error : Option StageError
  sigs : SigMap
  resourceGenerated : Bool
  slept : Bool
deriving DecidableEq, Repr

/-- `Xspress3FileStore.stage()`, straight-line with early exits:
reads `external_trig`; forces acquisition off (`cam.acquire.put(0, wait=True)`
— a hardware write that happens *before* the `total_points` check); raises
`RuntimeError` if `total_points < 1`; computes
`total_capture = total_points * spectra_per_point`; rebuilds `stage_sigs`
(stop acquire, pop and re-order `num_capture` / `cam.num_images`, disable the
calc record, select trigger mode and frame count, disable auto-save, and set
`num_capture = total_capture` last); erases old spectra
(`cam.erase.put(1, wait=True)`); applies the staged configuration
(`super().stage()`); raises `IOError` if the IOC-side file path is missing;
generates the filestore resource; arms capture (`capture.put(1)`); sleeps
for the configuration settle time. -/
def stage (env : StageEnv) (sigs0 : SigMap) : StageOutcome :=
  let external_trig_reading := env.external_trig
  let writes := [HwWrite.camAcquirePut 0 true]
  let total_points_reading := env.total_points
  if total_points_reading < 1 then
    { writes := writes
      error := some .totalPointsNotSet
      sigs := sigs0
      resourceGenerated := false
      slept := false }
  else
    let spec_per_point := env.spectra_per_point
    let total_capture := total_points_reading * spec_per_point
    let sigs := sigs0.set .camAcquire (.int 0)
    let sigs := (sigs.pop .numCapture).pop .camNumImages
    let sigs := sigs.set .numCaptureCalcDisable (.int 1)
    let sigs :=
      if external_trig_reading then
        (sigs.set .camTriggerMode (.str "TTL Veto Only")).set
          .camNumImages (.int total_capture)
      else
        (sigs.set .camTriggerMode (.str "Internal")).set
          .camNumImages (.int spec_per_point)
    let sigs := sigs.set .autoSave (.str "No")
    -- make_filename() runs here (filesystem collaborator, no hardware write)
    let writes := writes ++ [HwWrite.camErasePut 1 true]
    let sigs := sigs.set .numCapture (.int total_capture)
    -- super().stage() applies `sigs` here
    if env.file_path_exists = false then
      { writes := writes
        error := some .pathDoesNotExist
        sigs := sigs
        resourceGenerated := false
        slept := false }
    else
      { writes := writes ++ [HwWrite.capturePut 1]
        error := none
        sigs := sigs
        resourceGenerated := true
        slept := true }

end Xspress3

namespace Xspress3

/-! ## Theorems for claims C5 and C6 -/

/-- **C6 counterexample.** The claim says that for every eV value `e` not a
multiple of 10, `bin_to_ev (ev_to_bin e)` is the nearest multiple of 10
*below* `e` (i.e. that `ev_to_bin` is `floor (e / 10)`).  At the concrete
input `e = -5` the code truncates toward zero: the round trip yields `0`,
not the nearest multiple of 10 below `-5`, which is `-10 = e - e % 10`. -/
theorem ev_bin_roundtrip_floor_counterexample :
    (-5 : Int) % 10 ≠ 0 ∧
      bin_to_ev (ev_to_bin (-5)) = 0 ∧
      (-5 : Int) - (-5 : Int) % 10 = -10 ∧
      bin_to_ev (ev_to_bin (-5)) ≠ (-5 : Int) - (-5 : Int) % 10 := by
  refine ⟨by decide, by decide, by decide, by decide⟩

/-- **C6 (amended).** For every eV value `e` that is a multiple of 10,
`bin_to_ev (ev_to_bin e) = e`; for every *nonnegative* `e` that is not a
multiple of 10, the round trip gives the nearest multiple of 10 below `e`
(`e - e % 10`, i.e. `ev_to_bin e = floor (e / 10)` for `e ≥ 0`).  For
negative `e` the code truncates toward zero instead of flooring. -/
theorem ev_bin_roundtrip (e : Int) :
    (e % 10 = 0 → bin_to_ev (ev_to_bin e) = e) ∧
      (0 ≤ e → bin_to_ev (ev_to_bin e) = e - e % 10) := by
  constructor
  · intro h
    rw [bin_to_ev, ev_to_bin]
    split <;> omega
  · intro h
    rw [bin_to_ev, ev_to_bin, if_pos h]
    omega

/-- Witness for `ev_bin_roundtrip` at `e = 37` (and the multiple-of-10 case
at `e = 40`). -/
theorem ev_bin_roundtrip_witness :
    (bin_to_ev (ev_to_bin 37) = 37 - 37 % 10 ∧ bin_to_ev (ev_to_bin 37) = 30) ∧
      bin_to_ev (ev_to_bin 40) = 40 := by
  refine ⟨⟨(ev_bin_roundtrip 37).2 (by decide), by decide⟩,
    (ev_bin_roundtrip 40).1 (by decide)⟩

/-- **C5.** ROI configuration is idempotent with respect to hardware writes:
(1) if the ROI's current `(min_x, size_x, use)` already read `(m, s, 1)`,
`configure_roi m s` performs no hardware write and leaves the state alone;
(2) calling `configure_roi m s` twice in a row issues writes at most on the
first call — the second call's write trace is always empty; and
(3) when the configuration did change, the write trace is exactly
`min_x`, then `size_x`, then `use`, in that order. -/
theorem configure_roi_idempotent (hw : RoiHw) (m s : Int) :
    (hw.min_x = m ∧ hw.size_x = s ∧ hw.use = 1 → configure_roi m s hw = (hw, [])) ∧
      (configure_roi m s (configure_roi m s hw).1).2 = [] ∧
      (hw.min_x ≠ m ∨ hw.size_x ≠ s ∨ hw.use ≠ 1 →
        (configure_roi m s hw).2 = [.putMinX m, .putSizeX s, .putUse 1]) := by
  refine ⟨?_, ?_, ?_⟩
  · rintro ⟨h1, h2, h3⟩
    simp [configure_roi, h1, h2, h3]
  · by_cases hch : hw.min_x ≠ m ∨ hw.size_x ≠ s ∨ hw.use ≠ 1
    · simp [configure_roi, hch]
    · push_neg at hch
      simp [configure_roi, hch.1, hch.2.1, hch.2.2]
  · intro hch
    simp only [configure_roi]
    rw [if_pos hch]

/-- Witness for `configure_roi_idempotent` at a concrete ROI state that
differs from the requested configuration. -/
theorem configure_roi_idempotent_witness :
    (configure_roi 100 50 ⟨0, 0, 0⟩).2 =
        [.putMinX 100, .putSizeX 50, .putUse 1] ∧
      (configure_roi 100 50 (configure_roi 100 50 ⟨0, 0, 0⟩).1).2 = [] ∧
      configure_roi 100 50 ⟨100, 50, 1⟩ = (⟨100, 50, 1⟩, []) := by
  refine ⟨(configure_roi_idempotent ⟨0, 0, 0⟩ 100 50).2.2 (by decide),
    (configure_roi_idempotent ⟨0, 0, 0⟩ 100 50).2.1,
    (configure_roi_idempotent ⟨100, 50, 1⟩ 100 50).1 (by decide)⟩

/-! ### Ordered-map lemmas for `stage_sigs` -/

theorem SigMap.get?_set_self (m : SigMap) (k : SigKey) (v : SigVal) :
    (m.set k v).get? k = some v := by
  induction m with
  | nil => simp [SigMap.set, SigMap.get?, List.find?]
  | cons kv rest ih =>
    by_cases h : kv.1 = k
    · simp [SigMap.set, SigMap.get?, List.find?, h]
    · simp only [SigMap.set]
      rw [if_neg h]
      simpa [SigMap.get?, List.find?, h] using ih

theorem SigMap.get?_set_ne (m : SigMap) {k k' : SigKey} (v : SigVal)
    (h : k ≠ k') : (m.set k v).get? k' = m.get? k' := by
  induction m with
  | nil => simp [SigMap.set, SigMap.get?, List.find?, h]
  | cons kv rest ih =>
    by_cases hk : kv.1 = k
    · simp [SigMap.set, SigMap.get?, List.find?, hk, h]
    · simp only [SigMap.set]
      rw [if_neg hk]
      by_cases hk' : kv.1 = k'
      · simp [SigMap.get?, List.find?, hk']
      · simpa [SigMap.get?, List.find?, hk'] using ih

/-! ### Lemmas about the memo tables -/

theorem Memo.find?_eq_some_mem {α : Type} [DecidableEq α] {m : Memo α}
    {a : α} {i : Nat} (h : m.find? a = some i) : (a, i) ∈ m.entries := by
  rw [Memo.find?, Option.map_eq_some'] at h
  obtain ⟨e, he, hei⟩ := h
  have h1 : e.1 = a := by simpa using List.find?_some he
  have h2 := List.mem_of_find?_eq_some he
  rcases e with ⟨ea, ei⟩
  cases h1
  cases hei
  exact h2

theorem Memo.find?_eq_none_forall {α : Type} [DecidableEq α] {m : Memo α}
    {a : α} (h : m.find? a = none) : ∀ p ∈ m.entries, p.1 ≠ a := by
  rw [Memo.find?, Option.map_eq_none'] at h
  rw [List.find?_eq_none] at h
  intro p hp
  simpa using h p hp

theorem Memo.find?_call_self {α : Type} [DecidableEq α] (m : Memo α) (a : α) :
    (m.call a).2.find? a = some (m.call a).1 := by
  rcases h : m.find? a with _ | id
  · have h0 : m.entries.find? (fun e => decide (e.1 = a)) = none := by
      rw [Memo.find?, Option.map_eq_none'] at h
      exact h
    simp only [Memo.call, h]
    rw [Memo.find?]
    simp [List.find?_append, h0, List.find?]
  · simp [Memo.call, h]

theorem Memo.call_call_same {α : Type} [DecidableEq α] (m : Memo α) (a : α) :
    ((m.call a).2.call a).1 = (m.call a).1 := by
  rcases hc : m.call a with ⟨i, m1⟩
  have h : m1.find? a = some i := by
    have := Memo.find?_call_self m a
    rw [hc] at this
    exact this
  simp [Memo.call, h]

theorem Memo.call_call_diff {α : Type} [DecidableEq α] {m : Memo α}
    (hInv : m.Inv) {a b : α} (hab : a ≠ b) :
    ((m.call a).2.call b).1 ≠ (m.call a).1 := by
  obtain ⟨hbound, hnodup⟩ := hInv
  rcases hfa : m.find? a with _ | i
  · have hma : m.call a = (m.next, ⟨m.entries ++ [(a, m.next)], m.next + 1⟩) := by
      simp [Memo.call, hfa]
    rw [hma]
    rcases hfb : (Memo.mk (m.entries ++ [(a, m.next)]) (m.next + 1)).find? b
        with _ | j
    · simp only [Memo.call, hfb]
      omega
    · have hmem := Memo.find?_eq_some_mem hfb
      simp only [Memo.call, hfb]
      rcases List.mem_append.1 hmem with hold | hnew
      · have := hbound _ hold
        omega
      · simp only [List.mem_singleton, Prod.mk.injEq] at hnew
        exact absurd hnew.1 (Ne.symm hab)
  · have hma : m.call a = (i, m) := by simp [Memo.call, hfa]
    rw [hma]
    have hmemA := Memo.find?_eq_some_mem hfa
    have hi : i < m.next := hbound _ hmemA
    rcases hfb : m.find? b with _ | j
    · simp only [Memo.call, hfb]
      omega
    · have hmemB := Memo.find?_eq_some_mem hfb
      simp only [Memo.call, hfb]
      intro hji
      have hpq : ((a, i) : α × Nat) = (b, j) :=
        List.inj_on_of_nodup_map hnodup hmemA hmemB (by simp [hji])
      exact hab (by simpa using congrArg Prod.fst hpq)

theorem Memo.call_inv {α : Type} [DecidableEq α] {m : Memo α} (hInv : m.Inv)
    (a : α) : (m.call a).2.Inv := by
  obtain ⟨hbound, hnodup⟩ := hInv
  rcases hfa : m.find? a with _ | i
  · simp only [Memo.call, hfa]
    constructor
    · intro p hp
      show p.2 < m.next + 1
      rcases List.mem_append.1 hp with hold | hnew
      · have := hbound _ hold
        omega
      · simp only [List.mem_singleton] at hnew
        simp [hnew]
    · rw [List.map_append, List.nodup_append]
      refine ⟨hnodup, by simp, ?_⟩
      intro x hx
      simp only [List.map_cons, List.map_nil, List.mem_singleton]
      obtain ⟨p, hp, hpx⟩ := List.mem_map.1 hx
      have := hbound _ hp
      omega
  · simpa [Memo.call, hfa] using ⟨hbound, hnodup⟩

/-- The channel builder never touches the detector memo table, so a fold of
channel-builder calls leaves it unchanged. -/
theorem foldl_channel_detectorMemo (roi_count : Nat) (l : List Nat)
    (st : BuilderState) :
    (l.foldl (fun s c => (build_channel_class c roi_count s).2) st).detectorMemo =
      st.detectorMemo := by
  induction l generalizing st with
  | nil => rfl
  | cons c cs ih =>
    rw [List.foldl_cons, ih]
    rfl

/-- `build_detector_class` acts on the detector memo table exactly as one
memoized call on the argument tuple. -/
theorem build_detector_class_call (channel_count roi_count : Nat)
    (st : BuilderState) :
    (build_detector_class channel_count roi_count st).1.1 =
        (st.detectorMemo.call (channel_count, roi_count)).1 ∧
      (build_detector_class channel_count roi_count st).2.detectorMemo =
        (st.detectorMemo.call (channel_count, roi_count)).2 := by
  rcases h : st.detectorMemo.find? (channel_count, roi_count) with _ | id
  · have hfold := foldl_channel_detectorMemo roi_count
      (List.range' 1 channel_count) st
    simp [build_detector_class, h, Memo.call, hfold]
  · simp [build_detector_class, h, Memo.call]

/-! ### Lemmas about the unstage drain loop -/

theorem unstageLoop_stuck (reads : Nat → Int) (h : ∀ n, reads n = 1) :
    ∀ fuel i, i ≤ 150 → 151 ≤ i + fuel →
      ∃ pre, unstageLoop reads none i fuel =
        (pre ++ [UnstageEvent.warnGivingUp, UnstageEvent.warnCheckFrames,
          UnstageEvent.capturePutZero], none) := by
  intro fuel
  induction fuel with
  | zero => intro i h1 h2; omega
  | succ fuel ih =>
    intro i h1 h2
    by_cases hl : 150 < i + 1
    · refine ⟨(if (i + 1) % 50 = 0 then [UnstageEvent.warnWaiting] else []) ++
        [UnstageEvent.sleep100ms], ?_⟩
      simp [unstageLoop, h i, hl]
    · obtain ⟨pre, hpre⟩ := ih (i + 1) (by omega) (by omega)
      refine ⟨(if (i + 1) % 50 = 0 then [UnstageEvent.warnWaiting] else []) ++
        UnstageEvent.sleep100ms :: pre, ?_⟩
      simp [unstageLoop, h i, hl, hpre]

theorem unstageLoop_interrupt (reads : Nat → Int) (h : ∀ n, reads n = 1)
    (k : Nat) (hk : k ≤ 151) :
    ∀ fuel i, i < k → k ≤ i + fuel →
      ∃ pre, unstageLoop reads (some k) i fuel =
        (pre, some .keyboardInterrupt) := by
  intro fuel
  induction fuel with
  | zero => intro i h1 h2; omega
  | succ fuel ih =>
    intro i h1 h2
    by_cases hik : k = i + 1
    · refine ⟨if (i + 1) % 50 = 0 then [UnstageEvent.warnWaiting] else [], ?_⟩
      simp [unstageLoop, h i, hik]
    · obtain ⟨pre, hpre⟩ := ih (i + 1) (by omega) (by omega)
      refine ⟨(if (i + 1) % 50 = 0 then [UnstageEvent.warnWaiting] else []) ++
        UnstageEvent.sleep100ms :: pre, ?_⟩
      have hl : ¬ 150 < i + 1 := by omega
      simp [unstageLoop, h i, hik, hl, hpre, Ne.symm hik]

/-- **C2.** Unstage against a capture flag stuck at 1: (a) with no external
interrupt, the poll loop exhausts its patience budget, logs the giving-up
and check-frame-count warnings, forces capture off (`capture.put(0)` is the
final event) and returns normally — no exception propagates; (b) a
`KeyboardInterrupt` delivered during the sleep of any iteration
`k ∈ [1, 151]` is caught and converted into a forced `capture.put(0)` plus
the interrupted warning, and is swallowed; (c) for every reading sequence
and every interrupt schedule whatsoever, `unstage` completes without
propagating an exception. -/
theorem unstage_capture_stall (reads : Nat → Int) (k : Nat)
    (hstuck : ∀ n, reads n = 1) (hk1 : 1 ≤ k) (hk2 : k ≤ 151) :
    ((∃ pre, (unstage reads none).events =
        pre ++ [UnstageEvent.warnGivingUp, UnstageEvent.warnCheckFrames,
          UnstageEvent.capturePutZero]) ∧
      (unstage reads none).raised = none) ∧
      ((∃ pre, (unstage reads (some k)).events =
          pre ++ [UnstageEvent.capturePutZero, UnstageEvent.warnInterrupted]) ∧
        (unstage reads (some k)).raised = none) ∧
      (∀ (reads' : Nat → Int) (interruptAt : Option Nat),
        (unstage reads' interruptAt).raised = none) := by
  refine ⟨?_, ?_, ?_⟩
  · obtain ⟨pre, hpre⟩ := unstageLoop_stuck reads hstuck 151 0 (by omega) (by omega)
    rw [unstage, hpre]
    exact ⟨⟨pre, rfl⟩, rfl⟩
  · obtain ⟨pre, hpre⟩ := unstageLoop_interrupt reads hstuck k hk2 151 0
      (by omega) (by omega)
    rw [unstage, hpre]
    exact ⟨⟨pre ++ [], by simp⟩, rfl⟩
  · intro reads' interruptAt
    rw [unstage]
    rcases hout : unstageLoop reads' interruptAt 0 151 with ⟨evts, exn⟩
    rcases exn with _ | e
    · rfl
    · cases e; rfl

/-- Witness for `unstage_capture_stall` at the constant stuck reading
sequence and interrupt iteration 5. -/
theorem unstage_capture_stall_witness :
    (unstage (fun _ => 1) none).raised = none ∧
      (unstage (fun _ => 1) (some 5)).raised = none ∧
      (∃ pre, (unstage (fun _ => 1) none).events =
        pre ++ [UnstageEvent.warnGivingUp, UnstageEvent.warnCheckFrames,
          UnstageEvent.capturePutZero]) := by
  have h := unstage_capture_stall (fun _ => 1) 5 (fun _ => rfl)
    (by decide) (by decide)
  exact ⟨h.1.2, h.2.1.2, h.1.1⟩

/-- **C1 counterexample.** The claim says staging with `total_points`
unset (default `-1`) raises the configuration error *and performs zero
hardware writes*.  At that concrete input the error is indeed raised, but
the write trace is not empty: `stage` has already forced acquisition off
(`cam.acquire.put(0, wait=True)`) before checking `total_points`. -/
theorem stage_unset_total_points_counterexample :
    (stage ⟨false, -1, 1, true, false⟩ initStageSigs).error =
        some .totalPointsNotSet ∧
      (stage ⟨false, -1, 1, true, false⟩ initStageSigs).writes ≠ [] ∧
      (stage ⟨false, -1, 1, true, false⟩ initStageSigs).writes =
        [HwWrite.camAcquirePut 0 true] := by
  refine ⟨by decide, by decide, by decide⟩

/-- **C1 (amended).** For every detector whose `total_points` signal reads a
value `< 1` (including the default `-1`), `stage()` raises the fatal
configuration error (`RuntimeError`), and exactly one hardware write — the
unconditional forced acquisition stop `cam.acquire.put(0, wait=True)`, which
the code issues before reading `total_points` — precedes the error; no other
hardware write occurs, the staged configuration map is untouched, no
filestore resource is generated, and the settle sleep is never reached. -/
theorem stage_unset_total_points (env : StageEnv) (sigs0 : SigMap)
    (h : env.total_points < 1) :
    stage env sigs0 =
      { writes := [HwWrite.camAcquirePut 0 true]
        error := some .totalPointsNotSet
        sigs := sigs0
        resourceGenerated := false
        slept := false } := by
  simp [stage, h]

/-- Witness for `stage_unset_total_points` at the default configuration
(`total_points = -1`). -/
theorem stage_unset_total_points_witness :
    (-1 : Int) < 1 ∧
      stage ⟨false, -1, 1, true, false⟩ initStageSigs =
        { writes := [HwWrite.camAcquirePut 0 true]
          error := some .totalPointsNotSet
          sigs := initStageSigs
          resourceGenerated := false
          slept := false } :=
  ⟨by decide, stage_unset_total_points ⟨false, -1, 1, true, false⟩ initStageSigs (by decide)⟩

/-- **C3.** For every successful `stage()` (i.e. `total_points ≥ 1` and the
IOC-side file path exists) with `total_points = p` and
`spectra_per_point = s`: the staged `num_capture` equals
`total_capture = p * s` in both trigger modes; with external triggering the
staged trigger mode is `"TTL Veto Only"` and the staged `num_images` equals
`total_capture`; without it the staged trigger mode is `"Internal"` and the
staged `num_images` equals `s`. -/
theorem stage_trigger_mode (env : StageEnv) (sigs0 : SigMap)
    (h1 : 1 ≤ env.total_points) (h2 : env.file_path_exists = true) :
    (stage env sigs0).error = none ∧
      (stage env sigs0).sigs.get? .numCapture =
        some (.int (env.total_points * env.spectra_per_point)) ∧
      (env.external_trig = true →
        (stage env sigs0).sigs.get? .camTriggerMode = some (.str "TTL Veto Only") ∧
          (stage env sigs0).sigs.get? .camNumImages =
            some (.int (env.total_points * env.spectra_per_point))) ∧
      (env.external_trig = false →
        (stage env sigs0).sigs.get? .camTriggerMode = some (.str "Internal") ∧
          (stage env sigs0).sigs.get? .camNumImages =
            some (.int env.spectra_per_point)) := by
  have hnl : ¬ env.total_points < 1 := by omega
  cases hE : env.external_trig <;>
    simp [stage, hnl, h2, hE, SigMap.get?_set_self, SigMap.get?_set_ne]

/-- Witness for `stage_trigger_mode` at `total_points = 5`,
`spectra_per_point = 3`, with external triggering requested. -/
theorem stage_trigger_mode_witness :
    (1 : Int) ≤ 5 ∧
      (stage ⟨true, 5, 3, true, false⟩ initStageSigs).sigs.get? .numCapture =
        some (.int 15) ∧
      (stage ⟨true, 5, 3, true, false⟩ initStageSigs).sigs.get? .camTriggerMode =
        some (.str "TTL Veto Only") := by
  have h := stage_trigger_mode ⟨true, 5, 3, true, false⟩ initStageSigs
    (by decide) (by decide)
  exact ⟨by decide, h.2.1, (h.2.2.1 rfl).1⟩

/-- **C7.** The acquisition-status callback resolves the pending status
exactly once on a strict falling edge (`old_value = 1`, `value = 0`) while a
status is pending (exactly one `_finished()` call, and the slot keeps that
same status object); any change observed with no pending status is a no-op
(state unchanged, zero `_finished()` calls, no error); and a non-falling
edge never resolves the status (state unchanged, zero `_finished()`
calls). -/
theorem acquire_changed_falling_edge (value old_value : Int) (s : PendingStatus) :
    (acquire_changed value old_value none = (none, 0)) ∧
      (old_value = 1 → value = 0 →
        acquire_changed value old_value (some s) = (some ⟨s.finishedCount + 1⟩, 1)) ∧
      (¬(old_value = 1 ∧ value = 0) →
        acquire_changed value old_value (some s) = (some s, 0)) := by
  refine ⟨rfl, ?_, ?_⟩
  · intro h1 h0
    simp [acquire_changed, h1, h0]
  · intro h
    simp only [acquire_changed]
    rw [if_neg h]

/-- Witness for `acquire_changed_falling_edge`: a falling edge with a
pending status resolves it once; a rising edge does not. -/
theorem acquire_changed_falling_edge_witness :
    acquire_changed 0 1 (some ⟨0⟩) = (some ⟨1⟩, 1) ∧
      acquire_changed 1 0 (some ⟨0⟩) = (some ⟨0⟩, 0) ∧
      acquire_changed 0 1 none = (none, 0) := by
  refine ⟨(acquire_changed_falling_edge 0 1 ⟨0⟩).2.1 rfl rfl,
    (acquire_changed_falling_edge 1 0 ⟨0⟩).2.2 (by decide),
    (acquire_changed_falling_edge 0 1 ⟨0⟩).1⟩

/-- **C8.** `trigger()` on an unstaged device raises the not-staged
`RuntimeError` with the device state (in particular the pending-status slot)
unchanged and no hardware event; on a staged device it returns a fresh
pending status immediately (the non-blocking `acquire.put(1, wait=False)` is
the first event) and increments the absolute trigger counter by one. -/
theorem trigger_staging (chanStreamName : String → String)
    (st : TriggerDeviceState) :
    (st.staged = false →
      trigger chanStreamName st = (st, [], .error "not staged")) ∧
      (st.staged = true →
        (trigger chanStreamName st).1.status = some ⟨0⟩ ∧
          (trigger chanStreamName st).2.2 = .ok ⟨0⟩ ∧
          (trigger chanStreamName st).1.absTriggerCount = st.absTriggerCount + 1 ∧
          ((trigger chanStreamName st).2.1).head? =
            some (TriggerEvent.acquirePut 1 false)) := by
  constructor
  · intro h
    simp [trigger, h]
  · intro h
    simp [trigger, h]

/-- Witness for `trigger_staging`: a concrete unstaged device raises and is
left unchanged; the same device staged returns a pending status and counts
the trigger. -/
theorem trigger_staging_witness :
    (trigger id ⟨false, none, 3, ["channel1"]⟩ =
        (⟨false, none, 3, ["channel1"]⟩, [], .error "not staged")) ∧
      (trigger id ⟨true, none, 3, ["channel1"]⟩).1.status = some ⟨0⟩ ∧
      (trigger id ⟨true, none, 3, ["channel1"]⟩).1.absTriggerCount = 4 := by
  refine ⟨(trigger_staging id ⟨false, none, 3, ["channel1"]⟩).1 rfl,
    ((trigger_staging id ⟨true, none, 3, ["channel1"]⟩).2 rfl).1,
    ((trigger_staging id ⟨true, none, 3, ["channel1"]⟩).2 rfl).2.2.1⟩

/-- **C4.** Both class builders are memoized by argument tuple: starting
from any well-formed cache state, a second call with identical arguments
returns the identical type object (same identity), a subsequent call with a
different argument tuple returns a distinct type object, and
`build_channel_class c r` produces a class with exactly `r` ROI slots whose
attribute names are the two-digit zero-padded `mcaroi01 .. mcaroiNN`. -/
theorem build_class_memoization (st : BuilderState) (hInv : st.Inv)
    (c r c' r' : Nat) :
    ((build_channel_class c r (build_channel_class c r st).2).1.1 =
        (build_channel_class c r st).1.1) ∧
      ((c, r) ≠ (c', r') →
        (build_channel_class c' r' (build_channel_class c r st).2).1.1 ≠
          (build_channel_class c r st).1.1) ∧
      ((build_detector_class c r (build_detector_class c r st).2).1.1 =
        (build_detector_class c r st).1.1) ∧
      ((c, r) ≠ (c', r') →
        (build_detector_class c' r' (build_detector_class c r st).2).1.1 ≠
          (build_detector_class c r st).1.1) ∧
      ((build_channel_class c r st).1.2.mcarois.length = r ∧
        (build_channel_class c r st).1.2.mcarois.map Prod.fst =
          (List.range' 1 r).map mcaroiAttrName) := by
  refine ⟨?_, ?_, ?_, ?_, ?_, ?_⟩
  · exact Memo.call_call_same st.channelMemo (c, r)
  · intro hne
    exact Memo.call_call_diff hInv.1 hne
  · obtain ⟨hv1, hm1⟩ := build_detector_class_call c r st
    obtain ⟨hv2, _⟩ := build_detector_class_call c r (build_detector_class c r st).2
    rw [hv1, hv2, hm1]
    exact Memo.call_call_same st.detectorMemo (c, r)
  · intro hne
    obtain ⟨hv1, hm1⟩ := build_detector_class_call c r st
    obtain ⟨hv2, _⟩ := build_detector_class_call c' r' (build_detector_class c r st).2
    rw [hv1, hv2, hm1]
    exact Memo.call_call_diff hInv.2 hne
  · simp [build_channel_class, build_channel_class_body, List.length_range']
  · simp [build_channel_class, build_channel_class_body, List.map_map]

/-- Witness for `build_class_memoization`: from the empty cache,
`build_channel_class 3 4` twice returns the identical type object,
`build_channel_class 3 5` afterwards returns a different one, and the
5-ROI channel class has slots `mcaroi01 .. mcaroi05`. -/
theorem build_class_memoization_witness :
    ((build_channel_class 3 4 (build_channel_class 3 4 BuilderState.empty).2).1.1 =
        (build_channel_class 3 4 BuilderState.empty).1.1) ∧
      ((build_channel_class 3 5 (build_channel_class 3 4 BuilderState.empty).2).1.1 ≠
        (build_channel_class 3 4 BuilderState.empty).1.1) ∧
      (build_channel_class 3 5 BuilderState.empty).1.2.mcarois.map Prod.fst =
        ["mcaroi01", "mcaroi02", "mcaroi03", "mcaroi04", "mcaroi05"] := by
  have hInv : BuilderState.empty.Inv := by
    constructor <;> exact ⟨by simp [BuilderState.empty, Memo.empty],
      by simp [BuilderState.empty, Memo.empty]⟩
  have h1 := build_class_memoization BuilderState.empty hInv 3 4 3 5
  have h2 := build_class_memoization BuilderState.empty hInv 3 5 3 4
  refine ⟨h1.1, h1.2.1 (by decide), ?_⟩
  rw [h2.2.2.2.2.2]
  decide

/-- **C9.** For every channel and every integer ROI index `i ≤ 0`,
`set_roi(i, ev_min, ev_size)` raises `ValueError` before touching any
hardware signal (the outcome carries no hardware write); for `i ≥ 1` (within
the channel's ROI slots) it resolves the 1-based slot `mcaroi{i:02d}` and
calls its `configure_roi` — the writes are exactly that configure's writes
and the slot is updated to that configure's result. -/
theorem set_roi_index_check (channel_num : Nat) (rois : List RoiHw)
    (index ev_min ev_size : Int) (name : Option String) :
    (index ≤ 0 →
      set_roi channel_num rois index ev_min ev_size name = .valueError) ∧
      (1 ≤ index → index.toNat ≤ rois.length →
        ∃ roi, rois.get? (index.toNat - 1) = some roi ∧
          set_roi channel_num rois index ev_min ev_size name =
            .ok (rois.set (index.toNat - 1) (configure_roi ev_min ev_size roi).1)
              (configure_roi ev_min ev_size roi).2
              (name.map fun nm =>
                ("Det" ++ toString channel_num ++ "_" ++ nm,
                  "Det" ++ toString channel_num ++ "_" ++
                    ("Det" ++ toString channel_num ++ "_" ++ nm) ++ "_total"))) := by
  constructor
  · intro h
    simp [set_roi, h]
  · intro h1 h2
    have hpos : ¬ index ≤ 0 := by omega
    have hlt : index.toNat - 1 < rois.length := by omega
    obtain ⟨roi, hget⟩ : ∃ roi, rois.get? (index.toNat - 1) = some roi :=
      ⟨rois.get ⟨index.toNat - 1, hlt⟩, List.get?_eq_get hlt⟩
    refine ⟨roi, hget, ?_⟩
    rw [List.get?_eq_getElem?] at hget
    simp [set_roi, hpos, hget]

/-- Witness for `set_roi_index_check` on a two-slot channel: index `0`
raises `ValueError` with no write; index `1` configures the first slot. -/
theorem set_roi_index_check_witness :
    set_roi 2 [⟨0, 0, 0⟩, ⟨0, 0, 0⟩] 0 100 50 none = .valueError ∧
      set_roi 2 [⟨0, 0, 0⟩, ⟨0, 0, 0⟩] 1 100 50 none =
        .ok [⟨100, 50, 1⟩, ⟨0, 0, 0⟩]
          [.putMinX 100, .putSizeX 50, .putUse 1] none := by
  constructor
  · exact (set_roi_index_check 2 [⟨0, 0, 0⟩, ⟨0, 0, 0⟩] 0 100 50 none).1
      (by decide)
  · obtain ⟨roi, hget, hres⟩ :=
      (set_roi_index_check 2 [⟨0, 0, 0⟩, ⟨0, 0, 0⟩] 1 100 50 none).2
        (by decide) (by decide)
    have hroi : ({ min_x := 0, size_x := 0, use := 0 } : RoiHw) = roi := by
      simpa using hget
    rw [hres, ← hroi]
    decide

/-- **C10.** For every data-stream key matching the name of no channel
sub-entity, `generate_datum` raises an unhandled `StopIteration` (the
channel lookup is a `next(...)` with no default and the branch is not
guarded): the state — including the key-to-channel `mds_keys` mapping — is
unchanged and no datum is delegated to the filestore collaborator. -/
theorem generate_datum_no_channel (chanName : Nat → String) (st : DatumState)
    (key : String) (datum_kwargs : List (String × Int))
    (h : ∀ j ∈ st.channels, chanName j ≠ key) :
    generate_datum chanName st key datum_kwargs =
      { finalState := st, emitted := none, raised := some .stopIteration } := by
  have hfind : st.channels.find? (fun j => chanName j = key) = none := by
    rw [List.find?_eq_none]
    intro j hj
    simpa using h j hj
  simp [generate_datum, hfind]

/-- Witness for `generate_datum_no_channel` at a concrete two-channel
filestore and a key that names no channel. -/
theorem generate_datum_no_channel_witness :
    generate_datum (fun j => "det_channel" ++ toString j) ⟨[1, 2], [], 0⟩
        "no_such_channel" [] =
      { finalState := ⟨[1, 2], [], 0⟩, emitted := none,
        raised := some .stopIteration } :=
  generate_datum_no_channel (fun j => "det_channel" ++ toString j)
    ⟨[1, 2], [], 0⟩ "no_such_channel" [] (by decide)

end Xspress3
